import Mathlib

/-!
Verification of the ATR-ORB intraday trading bot (src/ATR-ORB.py) against its
natural-language specification.  The Python arithmetic (prices, quantities,
percentages) is embedded over ℚ with exact arithmetic; Python `round` is
modelled as round-half-to-even (`pyRound`) and Python `int()` truncation as
`pyInt`.  Global mutable state (the contract's min tick, the trade-record
list) is passed explicitly.
-/

/-- Python `round` on a rational: round half to even. -/
def pyRound (q : ℚ) : ℤ :=
  if q - ⌊q⌋ < 1/2 then ⌊q⌋
  else if q - ⌊q⌋ > 1/2 then ⌊q⌋ + 1
  else if ⌊q⌋ % 2 = 0 then ⌊q⌋ else ⌊q⌋ + 1

/-- Python `int()` on a rational: truncation toward zero. -/
def pyInt (q : ℚ) : ℤ :=
  if 0 ≤ q then ⌊q⌋ else ⌈q⌉

/-- Python `round(x, 2)`: round half to even at two decimal places. -/
def round2 (q : ℚ) : ℚ :=
  (pyRound (q * 100) : ℚ) / 100

/-- The effective tick size used by `format_price`: the global min tick when it
is present and positive, otherwise the default 0.01 (lines 328-335 of
src/ATR-ORB.py, including the final safety check). -/
def effectiveTick (global_min_tick : Option ℚ) : ℚ :=
  let e : ℚ :=
    match global_min_tick with
    | some t => if t > 0 then t else 1/100
    | none => 1/100
  if e ≤ 0 then 1/100 else e

/-- `format_price` (src/ATR-ORB.py lines 326-337): quantize a price to the
nearest multiple of the effective tick. -/
def format_price (global_min_tick : Option ℚ) (price : ℚ) : ℚ :=
  (pyRound (price / effectiveTick global_min_tick) : ℚ) * effectiveTick global_min_tick

/-- Order side / signal direction. -/
inductive TradeAction
  | BUY
  | SELL
  | NONE
deriving DecidableEq, Repr

/-- `price_change_percent = (close - open) / open * 100` (line 1248). -/
def price_change_percent (open_ close : ℚ) : ℚ :=
  (close - open_) / open_ * 100

/-- Signal direction from the latest completed bar (lines 1254-1267). -/
def signalAction (open_ close : ℚ) : TradeAction :=
  if price_change_percent open_ close > 0 then TradeAction.BUY
  else if price_change_percent open_ close < 0 then TradeAction.SELL
  else TradeAction.NONE

/-- Reference stop of the signal: `close - R` for BUY, `close + R` for SELL
with `R = ATR * 0.1`, quantized by `format_price` (lines 1245, 1256-1265). -/
def signalStop (tick : Option ℚ) (open_ close atr : ℚ) : Option ℚ :=
  if price_change_percent open_ close > 0 then
    some (format_price tick (close - atr * (1/10)))
  else if price_change_percent open_ close < 0 then
    some (format_price tick (close + atr * (1/10)))
  else none

/-- `qty_risk = max(1, int(ACCOUNT_SIZE * RISK_PCT / R))` (lines 1274-1276). -/
def qty_risk (accountSize riskPct R : ℚ) : ℤ :=
  max 1 (pyInt (accountSize * riskPct / R))

/-- `qty_leverage = max(1, int(ACCOUNT_SIZE * LEVERAGE / close))` (lines 1279-1281). -/
def qty_leverage (accountSize leverage price : ℚ) : ℤ :=
  max 1 (pyInt (accountSize * leverage / price))

/-- `qty = min(qty_risk, qty_leverage)` (line 1284). -/
def qty_sized (accountSize riskPct leverage R price : ℚ) : ℤ :=
  min (qty_risk accountSize riskPct R) (qty_leverage accountSize leverage price)

/-- `actual_leverage = qty * close / ACCOUNT_SIZE` (lines 1289-1290). -/
def actual_leverage (accountSize price : ℚ) (q : ℤ) : ℚ :=
  (q : ℚ) * price / accountSize

/-- The quantity submitted to the entry order after the post-hoc leverage
clamp (lines 1298-1302): if `actual_leverage > LEVERAGE`, the quantity is
recomputed as `int(ACCOUNT_SIZE * LEVERAGE / close)` with no floor to 1. -/
def qty_submitted (accountSize riskPct leverage R price : ℚ) : ℤ :=
  let q := qty_sized accountSize riskPct leverage R price
  if actual_leverage accountSize price q > leverage then
    pyInt (accountSize * leverage / price)
  else q

/-- Stop side opposite to the entry side (line 527). -/
def sl_action_of (entry_action : TradeAction) : TradeAction :=
  if entry_action = TradeAction.BUY then TradeAction.SELL else TradeAction.BUY

/-- Protective-stop adjustment (lines 533-538): a BUY stop (protecting a short)
is raised to at least `fill * 1.001`, a SELL stop (protecting a long) is
lowered to at most `fill * 0.999`. -/
def adjusted_stop_price (entry_action : TradeAction) (stop_price fill_price : ℚ) : ℚ :=
  if sl_action_of entry_action = TradeAction.BUY then
    max stop_price (fill_price * (1001/1000))
  else
    min stop_price (fill_price * (999/1000))

/-- The stop price actually submitted: the adjusted stop quantized to tick
size (line 541). -/
def submitted_stop_price (tick : Option ℚ) (entry_action : TradeAction)
    (stop_price fill_price : ℚ) : ℚ :=
  format_price tick (adjusted_stop_price entry_action stop_price fill_price)

/-- Retry price when the stop order is stuck in PendingSubmit near the attempt
cap (lines 583-584): the fixed adjustment is `0.01`, added for a BUY-side stop
and subtracted for a SELL-side stop, then re-quantized. -/
def stop_retry_price (tick : Option ℚ) (sl_action : TradeAction)
    (formatted_stop_price : ℚ) : ℚ :=
  let adjustment : ℚ := 1/100
  format_price tick
    (formatted_stop_price + (if sl_action = TradeAction.BUY then adjustment else -adjustment))

/-- The guard of the stop-order retry branch (line 576):
`status == 'PendingSubmit' and i >= 8`. -/
def stopRetryTriggered (status : String) (i : ℕ) : Bool :=
  status == "PendingSubmit" && 8 ≤ i

/-- A daily price bar as consumed by `calculate_atr`. -/
structure Bar where
  open_ : ℚ
  high : ℚ
  low : ℚ
  close : ℚ
deriving DecidableEq, Repr

/-- True range of a bar given the previous close: `max(H-L, |H-PC|, |L-PC|)`
(lines 318-321). -/
def trueRange (prevClose : ℚ) (b : Bar) : ℚ :=
  max (b.high - b.low) (max |b.high - prevClose| |b.low - prevClose|)

/-- True ranges of the bars after the first, threading the previous close. -/
def trueRangesAux (prev : ℚ) : List Bar → List ℚ
  | [] => []
  | b :: bs => trueRange prev b :: trueRangesAux b.close bs

/-- True ranges of a bar list; the first bar has no previous close, and pandas
`max` skips the resulting NaNs, leaving `high - low` (line 321). -/
def trueRanges : List Bar → List ℚ
  | [] => []
  | b :: bs => (b.high - b.low) :: trueRangesAux b.close bs

/-- `calculate_atr` (lines 317-323): the rolling 14-mean of the true range at
the last row, which is NaN (`none`) when there are fewer than 14 bars. -/
def calculate_atr (bars : List Bar) : Option ℚ :=
  let trs := trueRanges bars
  if bars.length < 14 then none
  else some ((trs.drop (trs.length - 14)).sum / 14)

/-- Outcome of the pre-order part of the main cycle. -/
inductive CycleOutcome
  | fatalExit
  | noSignalExit
  | proceed (action : TradeAction) (stop : ℚ)
deriving DecidableEq, Repr

/-- The main cycle up to the point an order could be placed (lines 1232-1270):
fatal exits on insufficient daily bars or a NaN / non-positive ATR, a clean
exit on a NONE signal, otherwise a signal to trade on. -/
def mainDecision (tick : Option ℚ) (daily : List Bar) (latest : Bar) : CycleOutcome :=
  if daily.length < 14 then CycleOutcome.fatalExit
  else
    match calculate_atr daily with
    | none => CycleOutcome.fatalExit
    | some atr =>
      if atr ≤ 0 then CycleOutcome.fatalExit
      else
        match signalAction latest.open_ latest.close with
        | TradeAction.BUY =>
            CycleOutcome.proceed TradeAction.BUY (format_price tick (latest.close - atr * (1/10)))
        | TradeAction.SELL =>
            CycleOutcome.proceed TradeAction.SELL (format_price tick (latest.close + atr * (1/10)))
        | TradeAction.NONE => CycleOutcome.noSignalExit

/-- The process exit code of a pre-order outcome: `exit(1)` on the fatal
paths (lines 1216, 1230, 1237, 1243), `exit(0)` on no signal (line 1270);
`none` when the cycle proceeds to trade. -/
def exitCode : CycleOutcome → Option ℕ
  | CycleOutcome.fatalExit => some 1
  | CycleOutcome.noSignalExit => some 0
  | CycleOutcome.proceed _ _ => none

/-- Whether the outcome reaches order placement. -/
def placesOrder : CycleOutcome → Bool
  | CycleOutcome.proceed _ _ => true
  | _ => false

/-- The fields of a trade record touched at exit time (lines 1359-1373 for the
entry-time defaults, 1025-1034 and 1169-1178 for the exit update). -/
structure TradeRecord where
  entryPrice : ℚ
  quantity : ℚ
  stopLoss : ℚ
  pnl : ℚ
  pnlPercent : ℚ
  result : String
  exitReason : String
  exitPrice : ℚ
deriving DecidableEq, Repr

/-- Signed profit and loss: `(exit-entry)*qty` long, `(entry-exit)*qty`
short (lines 1013-1018, 1155-1160). -/
def trade_pnl (action : TradeAction) (entry exit_price qty : ℚ) : ℚ :=
  if action = TradeAction.BUY then (exit_price - entry) * qty
  else (entry - exit_price) * qty

/-- Percentage profit and loss (lines 1015, 1018, 1157, 1160). -/
def trade_pnl_percent (action : TradeAction) (entry exit_price : ℚ) : ℚ :=
  if action = TradeAction.BUY then (exit_price - entry) / entry * 100
  else (entry - exit_price) / entry * 100

/-- Result classification by PnL sign (lines 1020, 1162). -/
def trade_result (pnl : ℚ) : String :=
  if pnl > 0 then "Profit" else if pnl < 0 then "Loss" else "Breakeven"

/-- The exit-time mutation of a single trade record (lines 1027-1033,
1171-1177); PnL fields are rounded to two decimals. -/
def recordExitUpdate (exit_price pnl pct : ℚ) (result reason : String)
    (t : TradeRecord) : TradeRecord :=
  { t with
    exitPrice := exit_price
    pnl := round2 pnl
    pnlPercent := round2 pct
    result := result
    exitReason := reason }

/-- The record-update loop (lines 1025-1034, 1169-1178): update the first
record whose entry price is within 0.1 of the given one, then `break`. -/
def updateFirstMatch (entry_price : ℚ) (f : TradeRecord → TradeRecord) :
    List TradeRecord → List TradeRecord
  | [] => []
  | t :: ts =>
    if |t.entryPrice - entry_price| < 1/10 then f t :: ts
    else t :: updateFirstMatch entry_price f ts

/-- `close_position_at_market` (lines 1081-1192), with the venue's behaviour
abstracted as `fill`: `some p` when the market order fills at price `p` within
the attempt cap, `none` otherwise.  On a fill the matching trade record is
updated and `True` returned; otherwise `False` is returned and the records are
untouched. -/
def close_position_at_market (action : TradeAction) (quantity entry_price : ℚ)
    (reason : String) (fill : Option ℚ) (records : List TradeRecord) :
    Bool × List TradeRecord :=
  match fill with
  | none => (false, records)
  | some exit_price =>
    let pnl := trade_pnl action entry_price exit_price quantity
    let pct := trade_pnl_percent action entry_price exit_price
    (true,
     updateFirstMatch entry_price
       (recordExitUpdate exit_price pnl pct (trade_result pnl) reason) records)

/-- Per-run monitoring configuration (arguments of `monitor_trade_and_exit`,
line 918). -/
structure MonitorCtx where
  action : TradeAction
  quantity : ℚ
  entry_price : ℚ
  stop_price : ℚ
  exit_strategy : String
  max_hold_minutes : ℕ
deriving DecidableEq, Repr

/-- What one wake of the monitoring loop observes: the wall clock
(US/Eastern), elapsed minutes since entry, whether the instrument still
appears in the broker's position list, and — if a market close is attempted —
whether/where it fills. -/
structure WakeObs where
  hour : ℕ
  minute : ℕ
  elapsed_minutes : ℚ
  position_exists : Bool
  close_fill : Option ℚ
deriving DecidableEq, Repr

/-- What a single wake of the monitoring loop did. -/
inductive StepOutcome
  | continueMonitoring
  | policyClose (reason : String) (closeSucceeded : Bool)
  | stopTriggered (exit_price pnl pct : ℚ) (result : String)
deriving DecidableEq, Repr

/-- The EOD trigger condition (line 975): `hour == 15 and minute >= 50`. -/
def eodConditionMet (hour minute : ℕ) : Bool :=
  hour == 15 && 50 ≤ minute

/-- Evaluation of the configured exit strategy at a wake (lines 974-983):
returns the exit reason when the policy fires. -/
def strategyExit (ctx : MonitorCtx) (obs : WakeObs) : Option String :=
  if ctx.exit_strategy = "EOD" then
    if eodConditionMet obs.hour obs.minute then some "EOD Market Close" else none
  else if ctx.exit_strategy = "MAX_DURATION" then
    if (ctx.max_hold_minutes : ℚ) ≤ obs.elapsed_minutes then
      some ("Max Duration (" ++ toString ctx.max_hold_minutes ++ " min) Reached")
    else none
  else none

/-- One wake of the monitoring loop body (lines 966-1071): first the exit
policy (its close result is discarded and the loop terminates either way,
lines 985-988); else the position-existence check, whose failure takes the
stop-triggered path (lines 1000-1038); else the loop continues.  Returns the
step outcome, the updated trade records, and `is_position_closed`. -/
def monitorStep (ctx : MonitorCtx) (obs : WakeObs) (records : List TradeRecord) :
    StepOutcome × List TradeRecord × Bool :=
  match strategyExit ctx obs with
  | some reason =>
    let res := close_position_at_market ctx.action ctx.quantity ctx.entry_price
      reason obs.close_fill records
    (StepOutcome.policyClose reason res.1, res.2, true)
  | none =>
    if obs.position_exists then (StepOutcome.continueMonitoring, records, false)
    else
      let exit_price := ctx.stop_price
      let pnl := trade_pnl ctx.action ctx.entry_price exit_price ctx.quantity
      let pct := trade_pnl_percent ctx.action ctx.entry_price exit_price
      (StepOutcome.stopTriggered exit_price pnl pct (trade_result pnl),
       updateFirstMatch ctx.entry_price
         (recordExitUpdate exit_price pnl pct (trade_result pnl) "Stop Loss Triggered") records,
       true)

/-! ### Basic lemmas about the rounding primitives -/

theorem pyRound_sub_le (q : ℚ) : |(pyRound q : ℚ) - q| ≤ 1/2 := by
  have hfl : (⌊q⌋ : ℚ) ≤ q := Int.floor_le q
  have hfu : q < (⌊q⌋ : ℚ) + 1 := Int.lt_floor_add_one q
  unfold pyRound
  split_ifs with h1 h2 h3 <;>
  · push_cast
    rw [abs_le]
    constructor <;> linarith

theorem pyRound_intCast (k : ℤ) : pyRound (k : ℚ) = k := by
  unfold pyRound
  rw [Int.floor_intCast]
  norm_num

theorem effectiveTick_pos (t : Option ℚ) : 0 < effectiveTick t := by
  unfold effectiveTick
  cases t with
  | none => norm_num
  | some v =>
    simp only []
    split_ifs with h1 h2 <;> linarith

theorem format_price_sub_le (t : Option ℚ) (p : ℚ) :
    |format_price t p - p| ≤ effectiveTick t / 2 := by
  have he : 0 < effectiveTick t := effectiveTick_pos t
  have h := pyRound_sub_le (p / effectiveTick t)
  unfold format_price
  have hrw : (pyRound (p / effectiveTick t) : ℚ) * effectiveTick t - p =
      ((pyRound (p / effectiveTick t) : ℚ) - p / effectiveTick t) * effectiveTick t := by
    field_simp
  rw [hrw, abs_mul, abs_of_pos he]
  calc |(pyRound (p / effectiveTick t) : ℚ) - p / effectiveTick t| * effectiveTick t
      ≤ (1/2) * effectiveTick t := by
        exact mul_le_mul_of_nonneg_right h (le_of_lt he)
    _ = effectiveTick t / 2 := by ring

theorem format_price_multiple (t : Option ℚ) (p : ℚ) :
    ∃ k : ℤ, format_price t p = (k : ℚ) * effectiveTick t :=
  ⟨pyRound (p / effectiveTick t), rfl⟩

theorem effectiveTick_of_pos (t : ℚ) (ht : 0 < t) : effectiveTick (some t) = t := by
  unfold effectiveTick
  simp only []
  rw [if_pos ht, if_neg (not_le.mpr ht)]

theorem format_price_exact (t : ℚ) (ht : 0 < t) (k : ℤ) :
    format_price (some t) ((k : ℚ) * t) = (k : ℚ) * t := by
  unfold format_price
  rw [effectiveTick_of_pos t ht, mul_div_cancel_right₀ _ (ne_of_gt ht), pyRound_intCast]

theorem updateFirstMatch_append (e : ℚ) (f : TradeRecord → TradeRecord)
    (pre post : List TradeRecord) (r : TradeRecord)
    (hpre : ∀ t ∈ pre, ¬ |t.entryPrice - e| < 1/10)
    (hr : |r.entryPrice - e| < 1/10) :
    updateFirstMatch e f (pre ++ r :: post) = pre ++ f r :: post := by
  induction pre with
  | nil =>
    rw [List.nil_append, List.nil_append]
    unfold updateFirstMatch
    rw [if_pos hr]
  | cons t ts ih =>
    rw [List.cons_append, List.cons_append]
    unfold updateFirstMatch
    rw [if_neg (hpre t (by simp))]
    have h2 := ih (fun x hx => hpre x (by simp [hx]))
    simp only [List.append_eq] at h2 ⊢
    rw [h2]

theorem pct_pos_iff (o c : ℚ) (ho : 0 < o) :
    price_change_percent o c > 0 ↔ o < c := by
  unfold price_change_percent
  rw [gt_iff_lt, div_mul_eq_mul_div, lt_div_iff₀ ho]
  constructor <;> intro h <;> nlinarith

theorem pct_neg_iff (o c : ℚ) (ho : 0 < o) :
    price_change_percent o c < 0 ↔ c < o := by
  unfold price_change_percent
  rw [div_mul_eq_mul_div, div_lt_iff₀ ho]
  constructor <;> intro h <;> nlinarith

/-! ### Claim C1 — EOD policy trigger window -/

/-- Claim C1, counterexample: at wall-clock 16:00 — which is at or after 15:50 —
the monitor with EOD strategy does not transition to PolicyClose; it continues
monitoring, refuting the claim that any wake at or after 15:50 (including hour
16 or later) triggers the transition. -/
theorem C1_eod_counterexample :
    (15 * 60 + 50 ≤ 16 * 60 + 0) ∧
    (monitorStep ⟨TradeAction.BUY, 10, 2000, 1998, "EOD", 60⟩
      ⟨16, 0, 5, true, none⟩ []).1 = StepOutcome.continueMonitoring := by
  constructor
  · norm_num
  · simp [monitorStep, strategyExit, eodConditionMet]

/-- Claim C1, amended: under the EndOfDay policy the monitor transitions to
PolicyClose with reason "EOD Market Close" exactly when the wall-clock hour
equals 15 and the minute is at least 50 — the window [15:50, 16:00) — and any
such time is at or after 15:50 (never before); wakes in hour 16 or later do
not trigger the transition. -/
theorem C1_eod_window_theorem (ctx : MonitorCtx) (obs : WakeObs)
    (records : List TradeRecord) (hEOD : ctx.exit_strategy = "EOD") :
    ((∃ b, (monitorStep ctx obs records).1 = StepOutcome.policyClose "EOD Market Close" b) ↔
      (obs.hour = 15 ∧ 50 ≤ obs.minute)) ∧
    (obs.hour = 15 ∧ 50 ≤ obs.minute → 15 * 60 + 50 ≤ obs.hour * 60 + obs.minute) := by
  constructor
  · unfold monitorStep strategyExit
    rw [hEOD]
    by_cases h : eodConditionMet obs.hour obs.minute
    · simp only [if_pos rfl, if_pos h]
      simp [eodConditionMet] at h
      simp [h]
    · simp only [if_pos rfl, if_neg h]
      simp [eodConditionMet] at h
      by_cases hp : obs.position_exists <;> (simp [hp]; exact h)
  · intro h
    omega

/-- Claim C1, witness: at 15:55 under the EOD strategy the monitor does
transition to PolicyClose with reason "EOD Market Close". -/
theorem C1_eod_window_witness :
    ("EOD" : String) = "EOD" ∧
    (∃ b, (monitorStep ⟨TradeAction.BUY, 10, 2000, 1998, "EOD", 60⟩
      ⟨15, 55, 5, true, none⟩ []).1 = StepOutcome.policyClose "EOD Market Close" b) := by
  refine ⟨rfl, ?_⟩
  exact (C1_eod_window_theorem ⟨TradeAction.BUY, 10, 2000, 1998, "EOD", 60⟩
    ⟨15, 55, 5, true, none⟩ [] rfl).1.mpr ⟨rfl, by norm_num⟩

/-! ### Claim C2 — post-hoc leverage clamp can submit quantity 0 -/

/-- Claim C2: evaluation of the sizing code at accountSize 25000, riskPct 1%,
leverage cap 4, R 10, price 200000.  The post-hoc leverage check fires
(actual leverage 8 > 4) and the recomputed quantity is 0, below the claimed
floor of 1: the quantity submitted to the entry order is not an integer ≥ 1. -/
theorem C2_leverage_clamp_eval :
    actual_leverage 25000 200000 (qty_sized 25000 (1/100) 4 10 200000) > 4 ∧
    qty_submitted 25000 (1/100) 4 10 200000 = 0 := by
  norm_num [qty_submitted, qty_sized, qty_risk, qty_leverage, actual_leverage, pyInt]

/-! ### Claim C3 — stop-order retry price nudge -/

/-- Claim C3, counterexample: with tick size 0.5 and a BUY-side stop at 100.00,
the retry price is again 100.00 — the fixed $0.01 nudge vanishes under tick
quantization, so the resubmitted price does not differ from the original by
one tick. -/
theorem C3_one_tick_counterexample :
    stop_retry_price (some (1/2)) TradeAction.BUY 100 = 100 ∧
    ¬ stop_retry_price (some (1/2)) TradeAction.BUY 100 = 100 + 1/2 := by
  have hr : stop_retry_price (some (1/2)) TradeAction.BUY 100
      = format_price (some (1/2)) (100 + 1/100) := rfl
  rw [hr]
  norm_num [format_price, effectiveTick, pyRound]

/-- Claim C3, amended: the retry branch fires exactly when the stop order is
still PendingSubmit at attempt index ≥ 8, and the resubmitted price is the
original price nudged by a fixed $0.01 — upward for a BUY-side stop, downward
for a SELL-side stop — re-quantized to tick size.  With the default 0.01 tick
(where every formatted stop price is an integer number of cents) this is
exactly one tick in the protective direction; for coarser ticks the quantized
nudge can vanish. -/
theorem C3_penny_nudge_theorem (k : ℤ) :
    (∀ status i, stopRetryTriggered status i = true ↔ (status = "PendingSubmit" ∧ 8 ≤ i)) ∧
    stop_retry_price (some (1/100)) TradeAction.BUY ((k : ℚ)/100) = (k : ℚ)/100 + 1/100 ∧
    stop_retry_price (some (1/100)) TradeAction.SELL ((k : ℚ)/100) = (k : ℚ)/100 - 1/100 := by
  have h1 : (k : ℚ)/100 + 1/100 = ((k + 1 : ℤ) : ℚ) * (1/100) := by push_cast; ring
  have h2 : (k : ℚ)/100 - 1/100 = ((k - 1 : ℤ) : ℚ) * (1/100) := by push_cast; ring
  refine ⟨?_, ?_, ?_⟩
  · intro status i
    simp [stopRetryTriggered]
  · have hr : stop_retry_price (some (1/100)) TradeAction.BUY ((k : ℚ)/100)
        = format_price (some (1/100)) ((k : ℚ)/100 + 1/100) := rfl
    rw [hr, h1]
    exact format_price_exact (1/100) (by norm_num) (k + 1)
  · have hr : stop_retry_price (some (1/100)) TradeAction.SELL ((k : ℚ)/100)
        = format_price (some (1/100)) ((k : ℚ)/100 + -(1/100)) := rfl
    have harg : (k : ℚ)/100 + -(1/100) = (k : ℚ)/100 - 1/100 := by ring
    rw [hr, harg, h2]
    exact format_price_exact (1/100) (by norm_num) (k - 1)

/-! ### Claim C4 — position sizing formula and post-clamp leverage bound -/

/-- Claim C4: for all positive accountSize, riskFraction, leverageCap, R and
price, the pre-clamp quantity is the minimum of the two floored components,
each at least 1, and after the one-shot post-hoc leverage clamp the bound
quantity * price / accountSize ≤ leverageCap holds (hence also with any
nonnegative epsilon added). -/
theorem C4_sizing_theorem (a rp lv R p : ℚ)
    (ha : 0 < a) (hrp : 0 < rp) (hlv : 0 < lv) (hR : 0 < R) (hp : 0 < p) :
    qty_sized a rp lv R p = min (max 1 ⌊a * rp / R⌋) (max 1 ⌊a * lv / p⌋) ∧
    (qty_submitted a rp lv R p : ℚ) * p / a ≤ lv := by
  have hq1 : (0:ℚ) ≤ a * rp / R := by positivity
  have hq2 : (0:ℚ) ≤ a * lv / p := by positivity
  constructor
  · unfold qty_sized qty_risk qty_leverage pyInt
    rw [if_pos hq1, if_pos hq2]
  · simp only [qty_submitted]
    split_ifs with h
    · unfold pyInt
      rw [if_pos hq2]
      have h1 : (⌊a * lv / p⌋ : ℚ) ≤ a * lv / p := Int.floor_le _
      have h2 : (⌊a * lv / p⌋ : ℚ) * p ≤ a * lv := by
        calc (⌊a * lv / p⌋ : ℚ) * p ≤ (a * lv / p) * p :=
              mul_le_mul_of_nonneg_right h1 hp.le
          _ = a * lv := div_mul_cancel₀ _ (ne_of_gt hp)
      rw [div_le_iff₀ ha]
      linarith
    · unfold actual_leverage at h
      exact le_of_not_lt h

/-- Claim C4, witness: the sizing theorem at accountSize 25000, riskPct 1%,
leverage 4, R 2.5, price 500. -/
theorem C4_sizing_witness :
    ((0:ℚ) < 25000 ∧ (0:ℚ) < 1/100 ∧ (0:ℚ) < 4 ∧ (0:ℚ) < 5/2 ∧ (0:ℚ) < 500) ∧
    qty_sized 25000 (1/100) 4 (5/2) 500
      = min (max 1 ⌊(25000 : ℚ) * (1/100) / (5/2)⌋) (max 1 ⌊(25000 : ℚ) * 4 / 500⌋) ∧
    (qty_submitted 25000 (1/100) 4 (5/2) 500 : ℚ) * 500 / 25000 ≤ 4 := by
  have h := C4_sizing_theorem 25000 (1/100) 4 (5/2) 500 (by norm_num) (by norm_num)
    (by norm_num) (by norm_num) (by norm_num)
  exact ⟨⟨by norm_num, by norm_num, by norm_num, by norm_num, by norm_num⟩, h.1, h.2⟩

/-! ### Claim C5 — signal classification and stop distance -/

/-- Claim C5: for every bar with positive open price and every ATR > 0, the
signal is NONE iff close = open, BUY iff close > open, SELL iff close < open,
and the returned stop price is within one tick of close − ATR*0.1 (BUY) resp.
close + ATR*0.1 (SELL). -/
theorem C5_signal_theorem (tick : Option ℚ) (o c atr : ℚ) (ho : 0 < o) (hatr : 0 < atr) :
    (signalAction o c = TradeAction.NONE ↔ c = o) ∧
    (signalAction o c = TradeAction.BUY ↔ o < c) ∧
    (signalAction o c = TradeAction.SELL ↔ c < o) ∧
    (o < c → ∃ sp, signalStop tick o c atr = some sp ∧
      |sp - (c - atr * (1/10))| ≤ effectiveTick tick) ∧
    (c < o → ∃ sp, signalStop tick o c atr = some sp ∧
      |sp - (c + atr * (1/10))| ≤ effectiveTick tick) := by
  have hb := pct_pos_iff o c ho
  have hs := pct_neg_iff o c ho
  have he : 0 < effectiveTick tick := effectiveTick_pos tick
  have hhalf : effectiveTick tick / 2 ≤ effectiveTick tick := by linarith
  have hstopB : o < c → ∃ sp, signalStop tick o c atr = some sp ∧
      |sp - (c - atr * (1/10))| ≤ effectiveTick tick := by
    intro hoc
    unfold signalStop
    rw [if_pos (hb.mpr hoc)]
    exact ⟨_, rfl, le_trans (format_price_sub_le tick _) hhalf⟩
  have hstopS : c < o → ∃ sp, signalStop tick o c atr = some sp ∧
      |sp - (c + atr * (1/10))| ≤ effectiveTick tick := by
    intro hco
    unfold signalStop
    rw [if_neg (by rw [hb]; exact not_lt.mpr (le_of_lt hco)), if_pos (hs.mpr hco)]
    exact ⟨_, rfl, le_trans (format_price_sub_le tick _) hhalf⟩
  rcases lt_trichotomy o c with hlt | heq | hgt
  · have hact : signalAction o c = TradeAction.BUY := by
      unfold signalAction
      rw [if_pos (hb.mpr hlt)]
    refine ⟨?_, ?_, ?_, hstopB, hstopS⟩ <;> rw [hact]
    · simp only [reduceCtorEq, false_iff]
      intro h
      rw [h] at hlt
      exact lt_irrefl o hlt
    · simp only [true_iff]
      exact hlt
    · simp only [reduceCtorEq, false_iff]
      intro h
      linarith
  · have hact : signalAction o c = TradeAction.NONE := by
      unfold signalAction
      rw [if_neg (by rw [hb]; exact not_lt.mpr (le_of_eq heq.symm)),
          if_neg (by rw [hs]; exact not_lt.mpr (le_of_eq heq))]
    refine ⟨?_, ?_, ?_, hstopB, hstopS⟩ <;> rw [hact]
    · simp only [true_iff]
      exact heq.symm
    · simp only [reduceCtorEq, false_iff]
      intro h
      linarith
    · simp only [reduceCtorEq, false_iff]
      intro h
      linarith
  · have hact : signalAction o c = TradeAction.SELL := by
      unfold signalAction
      rw [if_neg (by rw [hb]; exact not_lt.mpr (le_of_lt hgt)), if_pos (hs.mpr hgt)]
    refine ⟨?_, ?_, ?_, hstopB, hstopS⟩ <;> rw [hact]
    · simp only [reduceCtorEq, false_iff]
      intro h
      linarith
    · simp only [reduceCtorEq, false_iff]
      intro h
      linarith
    · simp only [true_iff]
      exact hgt

/-- Claim C5, witness: a bar with open 100 and close 101 and ATR 2 yields a
BUY signal whose stop is within one (default) tick of 100.8. -/
theorem C5_signal_witness :
    ((0:ℚ) < 100 ∧ (0:ℚ) < 2) ∧
    (signalAction 100 101 = TradeAction.BUY ↔ (100:ℚ) < 101) ∧
    (∃ sp, signalStop none 100 101 2 = some sp ∧
      |sp - ((101:ℚ) - 2 * (1/10))| ≤ effectiveTick none) := by
  have h := C5_signal_theorem none 100 101 2 (by norm_num) (by norm_num)
  exact ⟨⟨by norm_num, by norm_num⟩, h.2.1, h.2.2.2.1 (by norm_num)⟩

/-! ### Claim C6 — protective stop price vs the 0.1% band -/

/-- Claim C6, counterexample: with tick size 0.5, a long entry filled at 100
and reference stop 99.95, the submitted stop quantizes min(99.95, 99.9) = 99.9
up to 100.00, which exceeds fillPrice*0.999 = 99.9 — refuting the claimed
bound that the submitted stop for a long is always ≤ fillPrice*0.999. -/
theorem C6_band_counterexample :
    submitted_stop_price (some (1/2)) TradeAction.BUY (9995/100) 100 = 100 ∧
    ¬ submitted_stop_price (some (1/2)) TradeAction.BUY (9995/100) 100 ≤ 100 * (999/1000) := by
  have hB : submitted_stop_price (some (1/2)) TradeAction.BUY (9995/100) 100
      = format_price (some (1/2)) (min (9995/100) (100 * (999/1000))) := rfl
  rw [hB]
  norm_num [format_price, effectiveTick, pyRound, min_def]

/-- Claim C6, amended: the submitted protective stop equals
format_price(min(referenceStop, fillPrice*0.999)) for a long entry and
format_price(max(referenceStop, fillPrice*1.001)) for a short entry; it lies
within half a tick of that pre-quantization value, hence is at most
fillPrice*0.999 + tick/2 for a long (resp. at least fillPrice*1.001 − tick/2
for a short), but quantization can carry it past the raw 0.1% band. -/
theorem C6_stop_quantized_theorem (tick : Option ℚ) (ref fill : ℚ) :
    submitted_stop_price tick TradeAction.BUY ref fill
      = format_price tick (min ref (fill * (999/1000))) ∧
    submitted_stop_price tick TradeAction.SELL ref fill
      = format_price tick (max ref (fill * (1001/1000))) ∧
    |submitted_stop_price tick TradeAction.BUY ref fill - min ref (fill * (999/1000))|
      ≤ effectiveTick tick / 2 ∧
    |submitted_stop_price tick TradeAction.SELL ref fill - max ref (fill * (1001/1000))|
      ≤ effectiveTick tick / 2 ∧
    submitted_stop_price tick TradeAction.BUY ref fill
      ≤ fill * (999/1000) + effectiveTick tick / 2 ∧
    fill * (1001/1000) - effectiveTick tick / 2
      ≤ submitted_stop_price tick TradeAction.SELL ref fill := by
  have hB : submitted_stop_price tick TradeAction.BUY ref fill
      = format_price tick (min ref (fill * (999/1000))) := rfl
  have hS : submitted_stop_price tick TradeAction.SELL ref fill
      = format_price tick (max ref (fill * (1001/1000))) := rfl
  have hbB := format_price_sub_le tick (min ref (fill * (999/1000)))
  have hbS := format_price_sub_le tick (max ref (fill * (1001/1000)))
  have hminle : min ref (fill * (999/1000)) ≤ fill * (999/1000) := min_le_right _ _
  have hmaxge : fill * (1001/1000) ≤ max ref (fill * (1001/1000)) := le_max_right _ _
  have habB := abs_le.mp hbB
  have habS := abs_le.mp hbS
  refine ⟨hB, hS, ?_, ?_, ?_, ?_⟩
  · rw [hB]; exact hbB
  · rw [hS]; exact hbS
  · rw [hB]; linarith [habB.2]
  · rw [hS]; linarith [habS.1]

/-! ### Claim C7 — stop-triggered path of the monitor -/

/-- Claim C7: in any monitoring wake where no policy exit fires and the
instrument no longer appears in the position list, the monitor takes the
StopTriggered path: it synthesizes an exit at the recorded stop price, computes
signed PnL ((exit − entry)*qty for BUY, (entry − exit)*qty for SELL) and
percentage PnL, classifies the result by PnL sign, updates exactly the first
trade record whose entry price is within 0.1 with exit reason
"Stop Loss Triggered", and terminates the loop. -/
theorem C7_stop_triggered_theorem (ctx : MonitorCtx) (obs : WakeObs)
    (records : List TradeRecord)
    (hpol : strategyExit ctx obs = none)
    (hpos : obs.position_exists = false) :
    monitorStep ctx obs records =
      (StepOutcome.stopTriggered ctx.stop_price
         (trade_pnl ctx.action ctx.entry_price ctx.stop_price ctx.quantity)
         (trade_pnl_percent ctx.action ctx.entry_price ctx.stop_price)
         (trade_result (trade_pnl ctx.action ctx.entry_price ctx.stop_price ctx.quantity)),
       updateFirstMatch ctx.entry_price
         (recordExitUpdate ctx.stop_price
            (trade_pnl ctx.action ctx.entry_price ctx.stop_price ctx.quantity)
            (trade_pnl_percent ctx.action ctx.entry_price ctx.stop_price)
            (trade_result (trade_pnl ctx.action ctx.entry_price ctx.stop_price ctx.quantity))
            "Stop Loss Triggered") records,
       true) ∧
    (∀ entry exit_price qty : ℚ,
       trade_pnl TradeAction.BUY entry exit_price qty = (exit_price - entry) * qty ∧
       trade_pnl TradeAction.SELL entry exit_price qty = (entry - exit_price) * qty) ∧
    (∀ (f : TradeRecord → TradeRecord) (pre post : List TradeRecord) (r : TradeRecord),
       (∀ t ∈ pre, ¬ |t.entryPrice - ctx.entry_price| < 1/10) →
       |r.entryPrice - ctx.entry_price| < 1/10 →
       updateFirstMatch ctx.entry_price f (pre ++ r :: post) = pre ++ f r :: post) := by
  refine ⟨?_, ?_, ?_⟩
  · unfold monitorStep
    rw [hpol, hpos]
    simp
  · intro entry exit_price qty
    constructor
    · simp [trade_pnl]
    · simp [trade_pnl]
  · intro f pre post r hpre hr
    exact updateFirstMatch_append ctx.entry_price f pre post r hpre hr

/-- Claim C7, witness: the spec scenario — BUY entry at 2000.00, qty 10, stop
1998.00, position gone at a 14:00 wake — yields exit price 1998.00, PnL −20.00
(−0.1%) and result "Loss". -/
theorem C7_stop_triggered_witness :
    strategyExit ⟨TradeAction.BUY, 10, 2000, 1998, "EOD", 60⟩ ⟨14, 0, 5, false, none⟩ = none ∧
    (monitorStep ⟨TradeAction.BUY, 10, 2000, 1998, "EOD", 60⟩ ⟨14, 0, 5, false, none⟩
       [⟨2000, 10, 1998, 0, 0, "", "", 0⟩]).1 =
      StepOutcome.stopTriggered 1998 (-20) (-1/10) "Loss" := by
  have hpol : strategyExit ⟨TradeAction.BUY, 10, 2000, 1998, "EOD", 60⟩
      ⟨14, 0, 5, false, none⟩ = none := by
    simp [strategyExit, eodConditionMet]
  refine ⟨hpol, ?_⟩
  have h := (C7_stop_triggered_theorem ⟨TradeAction.BUY, 10, 2000, 1998, "EOD", 60⟩
    ⟨14, 0, 5, false, none⟩ [⟨2000, 10, 1998, 0, 0, "", "", 0⟩] hpol rfl).1
  rw [congrArg Prod.fst h]
  norm_num [trade_pnl, trade_pnl_percent, trade_result]

/-! ### Claim C8 — fatal aborts and the clean no-signal exit -/

/-- Claim C8: the cycle exits with code 1 before any order is placed when the
daily bars are fewer than the 14-sample window or the computed ATR is NaN
(modelled as `none`) or ≤ 0; and when the data is good but close = open
exactly, it exits with code 0, also without placing any order. -/
theorem C8_fatal_exit_theorem (tick : Option ℚ) (daily : List Bar) (latest : Bar) :
    (daily.length < 14 → mainDecision tick daily latest = CycleOutcome.fatalExit) ∧
    (calculate_atr daily = none → mainDecision tick daily latest = CycleOutcome.fatalExit) ∧
    (∀ atr, calculate_atr daily = some atr → atr ≤ 0 →
      mainDecision tick daily latest = CycleOutcome.fatalExit) ∧
    (exitCode CycleOutcome.fatalExit = some 1 ∧ placesOrder CycleOutcome.fatalExit = false) ∧
    (∀ atr, calculate_atr daily = some atr → 0 < atr → latest.close = latest.open_ →
      mainDecision tick daily latest = CycleOutcome.noSignalExit ∧
      exitCode CycleOutcome.noSignalExit = some 0 ∧
      placesOrder CycleOutcome.noSignalExit = false) := by
  refine ⟨?_, ?_, ?_, ⟨rfl, rfl⟩, ?_⟩
  · intro hl
    unfold mainDecision
    rw [if_pos hl]
  · intro h
    by_cases hl : daily.length < 14
    · unfold mainDecision
      rw [if_pos hl]
    · exfalso
      unfold calculate_atr at h
      rw [if_neg hl] at h
      simp at h
  · intro atr h hle
    by_cases hl : daily.length < 14
    · unfold mainDecision
      rw [if_pos hl]
    · unfold mainDecision
      rw [if_neg hl, h]
      simp only [if_pos hle]
  · intro atr h hpos hco
    by_cases hl : daily.length < 14
    · exfalso
      unfold calculate_atr at h
      rw [if_pos hl] at h
      simp at h
    · have hact : signalAction latest.open_ latest.close = TradeAction.NONE := by
        unfold signalAction price_change_percent
        rw [hco]
        simp
      refine ⟨?_, rfl, rfl⟩
      unfold mainDecision
      rw [if_neg hl, h]
      simp only [if_neg (not_le.mpr hpos), hact]

/-- Claim C8, witness: with 20 good daily bars (ATR 2) and a doji bar
(close = open = 5), the cycle takes the clean no-signal exit with code 0; with
an empty bar list it takes the fatal exit with code 1. -/
theorem C8_fatal_exit_witness :
    calculate_atr (List.replicate 20 ⟨1, 2, 0, 1⟩) = some 2 ∧
    (Bar.mk 5 9 1 5).close = (Bar.mk 5 9 1 5).open_ ∧
    mainDecision none (List.replicate 20 ⟨1, 2, 0, 1⟩) ⟨5, 9, 1, 5⟩ = CycleOutcome.noSignalExit ∧
    exitCode CycleOutcome.noSignalExit = some 0 ∧
    placesOrder CycleOutcome.noSignalExit = false ∧
    mainDecision none [] ⟨5, 9, 1, 5⟩ = CycleOutcome.fatalExit ∧
    exitCode CycleOutcome.fatalExit = some 1 := by
  have hatr : calculate_atr (List.replicate 20 ⟨1, 2, 0, 1⟩) = some 2 := by
    norm_num [calculate_atr, trueRanges, trueRangesAux, trueRange, List.replicate]
  have h5 := (C8_fatal_exit_theorem none (List.replicate 20 ⟨1, 2, 0, 1⟩) ⟨5, 9, 1, 5⟩).2.2.2.2
    2 hatr (by norm_num) rfl
  have h1 := (C8_fatal_exit_theorem none [] ⟨5, 9, 1, 5⟩).1 (by norm_num)
  exact ⟨hatr, rfl, h5.1, h5.2.1, h5.2.2, h1, rfl⟩

/-! ### Claim C9 — policy close failure leaves the record untouched -/

/-- Claim C9: when a policy exit fires but the market close order does not
fill, close_position_at_market returns failure without touching the trade
records, yet the monitor still marks the position closed and terminates the
loop — the records (including any at entry-time defaults) are left unchanged
with no further retry or stop-triggered detection. -/
theorem C9_close_failure_theorem (ctx : MonitorCtx) (obs : WakeObs)
    (records : List TradeRecord) (reason : String)
    (hfire : strategyExit ctx obs = some reason)
    (hfill : obs.close_fill = none) :
    close_position_at_market ctx.action ctx.quantity ctx.entry_price reason obs.close_fill records
      = (false, records) ∧
    monitorStep ctx obs records = (StepOutcome.policyClose reason false, records, true) := by
  have h1 : close_position_at_market ctx.action ctx.quantity ctx.entry_price reason
      obs.close_fill records = (false, records) := by
    rw [hfill]
    rfl
  refine ⟨h1, ?_⟩
  unfold monitorStep
  rw [hfire]
  simp [h1]

/-- Claim C9, witness: at 15:55 under the EOD strategy with an unfilled close
order, the monitor terminates with the trade record still at its entry-time
defaults (exit price 0, PnL 0, empty exit reason). -/
theorem C9_close_failure_witness :
    strategyExit ⟨TradeAction.BUY, 10, 2000, 1998, "EOD", 60⟩ ⟨15, 55, 5, true, none⟩
      = some "EOD Market Close" ∧
    monitorStep ⟨TradeAction.BUY, 10, 2000, 1998, "EOD", 60⟩ ⟨15, 55, 5, true, none⟩
      [⟨2000, 10, 1998, 0, 0, "", "", 0⟩] =
      (StepOutcome.policyClose "EOD Market Close" false, [⟨2000, 10, 1998, 0, 0, "", "", 0⟩], true) := by
  have hfire : strategyExit ⟨TradeAction.BUY, 10, 2000, 1998, "EOD", 60⟩
      ⟨15, 55, 5, true, none⟩ = some "EOD Market Close" := by
    simp [strategyExit, eodConditionMet]
  exact ⟨hfire, (C9_close_failure_theorem _ _ _ _ hfire rfl).2⟩

/-! ### Claim C10 — totality of format_price -/

/-- Claim C10: format_price is total; for every price and every global tick
(including None, zero or negative, which fall back to the default 0.01) the
effective tick is strictly positive and the result is the round-to-nearest
multiple of it, within half a tick of the input price. -/
theorem C10_format_price_theorem (tick : Option ℚ) (price : ℚ) :
    0 < effectiveTick tick ∧
    format_price tick price
      = (pyRound (price / effectiveTick tick) : ℚ) * effectiveTick tick ∧
    (∃ k : ℤ, format_price tick price = (k : ℚ) * effectiveTick tick) ∧
    |format_price tick price - price| ≤ effectiveTick tick / 2 ∧
    effectiveTick none = 1/100 ∧
    (∀ t : ℚ, t ≤ 0 → effectiveTick (some t) = 1/100) := by
  refine ⟨effectiveTick_pos tick, rfl, format_price_multiple tick price,
    format_price_sub_le tick price, by norm_num [effectiveTick], ?_⟩
  intro t ht
  unfold effectiveTick
  simp only []
  rw [if_neg (not_lt.mpr ht)]
  norm_num

/-- Claim C10, witness: a negative global tick of −1 is replaced by the
strictly positive default 0.01. -/
theorem C10_format_price_witness :
    ((-1 : ℚ) ≤ 0) ∧
    effectiveTick (some (-1)) = 1/100 ∧
    0 < effectiveTick (some (-1)) := by
  refine ⟨by norm_num, ?_, (C10_format_price_theorem (some (-1)) 0).1⟩
  exact (C10_format_price_theorem (some (-1)) 0).2.2.2.2.2 (-1) (by norm_num)
